import Mathlib

/-!
Verification of the bird/plane/superman image-classification service
(`src/main.py` of BryceRodgers7/bps-img-classifier-cloudrun).

The FastAPI layer of `main.py` is embedded shallowly: the `/predict`
endpoint becomes a pure function from the service state and an upload
to an `Except`-valued response together with the list of pipeline
steps it performed; the startup `lifespan` handler and
`download_model_from_gcs` become explicit state-passing functions over
a modelled filesystem.  The classifier itself (`classifier.py`,
`BirdPlaneSupermanClassifier`) is not part of the sources; its
behaviour is modelled from the specification where a definition says so.

Probabilities are embedded as rational numbers; Python's `round(v, 4)`
(round half to even on the decimal value) is embedded as exact
round-half-to-even on rationals.
-/

set_option maxHeartbeats 1000000

/-- The fixed label set of the classifier: bird, plane, superman, other. -/
inductive Label where
  | bird
  | plane
  | superman
  | other
deriving DecidableEq, Fintype

/-- A probability distribution over the four labels, as produced by the
classifier (`probabilities` dict): each label maps to one value. -/
def ProbDist : Type := Label → ℚ

/-- Sum of the four values of a distribution (`sum(probabilities.values())`). -/
def sumDist (d : ProbDist) : ℚ :=
  d Label.bird + d Label.plane + d Label.superman + d Label.other

/-- `max(probabilities.values())` from `src/main.py` line 228. -/
def maxProb (d : ProbDist) : ℚ :=
  max (d Label.bird) (max (d Label.plane) (max (d Label.superman) (d Label.other)))

/-- Modelled from the spec: the argmax step of
`BirdPlaneSupermanClassifier.predict_from_image` (`classifier.py` is not
among the sources).  Per the spec, `predicted_class` is the label with
maximum probability, ties broken by the fixed priority order
bird > plane > superman > other; this scan keeps the earlier label
unless a strictly larger probability appears. -/
def argmaxLabel (d : ProbDist) : Label :=
  let b1 := if d Label.plane > d Label.bird then Label.plane else Label.bird
  let b2 := if d Label.superman > d b1 then Label.superman else b1
  if d Label.other > d b2 then Label.other else b2

/-- Label priority used by the spec's tie-break order: lower index wins. -/
def priorityIdx : Label → Nat
  | Label.bird => 0
  | Label.plane => 1
  | Label.superman => 2
  | Label.other => 3

/-- Round-half-to-even to an integer, the rounding mode of Python's
built-in `round` (embedded exactly over rationals). -/
def roundHalfEven (q : ℚ) : ℤ :=
  if q - ⌊q⌋ < 1/2 then ⌊q⌋
  else if 1/2 < q - ⌊q⌋ then ⌊q⌋ + 1
  else if 2 ∣ ⌊q⌋ then ⌊q⌋ else ⌊q⌋ + 1

/-- Python's `round(v, 4)` from `src/main.py` lines 233-234. -/
def round4 (q : ℚ) : ℚ := (roundHalfEven (q * 10000) : ℚ) / 10000

/-- The JSON body the `/predict` endpoint returns
(`src/main.py` lines 231-236), and the spec's `ClassificationResult`. -/
structure ClassificationResult where
  predicted_class : Label
  confidence : ℚ
  probabilities : ProbDist
  threshold_applied : Bool

/-- Response building of `src/main.py` lines 227-236: `threshold_applied`
is computed from the unrounded probabilities and the returned class
(`max_prob < classifier.confidence_threshold and pred_class == 'other'`),
while `confidence` and each probability value are rounded to 4 decimals. -/
def predictResponse (threshold : ℚ) (pred : Label) (conf : ℚ) (probs : ProbDist) :
    ClassificationResult :=
  ⟨pred, round4 conf, fun l => round4 (probs l),
   if maxProb probs < threshold ∧ pred = Label.other then true else false⟩

namespace DecisionPolicy

/-- Modelled from the spec: `DecisionPolicy.decide` (the decision logic of
the missing `classifier.py` plus the `threshold_applied` computation):
`predicted_class` is the priority-tie-broken argmax, `confidence` its
probability, and `threshold_applied` holds iff the maximum probability is
strictly below the threshold and the argmax label is "other". -/
def decide (d : ProbDist) (t : ℚ) : ClassificationResult :=
  ⟨argmaxLabel d, maxProb d, d,
   if maxProb d < t ∧ argmaxLabel d = Label.other then true else false⟩

end DecisionPolicy

/-- Modelled from the spec: the invariant of a `ProbabilityDistribution`
produced by the scorer (`classifier.py` is not among the sources): every
label maps to a value in `[0,1]` and the values sum to 1 within `1e-4`. -/
def ValidDist (d : ProbDist) : Prop :=
  (∀ l, 0 ≤ d l ∧ d l ≤ 1) ∧ |sumDist d - 1| ≤ 1/10000

/-- An opaque decoded image (what `Image.open` produces, after the RGB
conversion); only its identity matters to the embedding. -/
def Img : Type := Nat

/-- The classifier object constructed at startup (`classifier.py` is not
among the sources, so only the members `main.py` uses appear):
`confidence_threshold` and the scoring function behind
`predict_from_image`.  `score` returns `none` when inference raises. -/
structure BirdPlaneSupermanClassifier where
  confidence_threshold : ℚ
  score : Img → Option ProbDist

/-- Modelled from the spec: `BirdPlaneSupermanClassifier.predict_from_image`
(`classifier.py` is not among the sources).  It normalizes and scores the
image to a probability distribution and returns the triple
`(pred_class, confidence, probabilities)` where `pred_class` is the
argmax label (ties by the fixed priority order) and `confidence` its
probability; per the spec there is no low-confidence override of the
argmax label. -/
def predict_from_image (c : BirdPlaneSupermanClassifier) (img : Img) :
    Option (Label × ℚ × ProbDist) :=
  (c.score img).map (fun d => (argmaxLabel d, maxProb d, d))

/-- The global `classifier` variable of `src/main.py`: `none` is the
Unloaded state (`classifier is None`), `some` the Loaded state. -/
def ServiceState : Type := Option BirdPlaneSupermanClassifier

/-- An upload as the `/predict` handler sees it: the declared
content-type, the byte length of the stream (`len(contents)`), and the
result of attempting to decode the byte stream with PIL (`none` when
`Image.open` raises on these bytes). -/
structure Upload where
  contentType : String
  size : Nat
  decodesTo : Option Img

/-- The distinct failure responses of the `/predict` handler in
`src/main.py`: model-not-loaded (503), disallowed content-type (400),
oversized payload (413), undecodable image bytes (400), and a failure
inside the classifier (500). -/
inductive PredictError where
  | notReady
  | invalidContentType
  | payloadTooLarge
  | invalidImage
  | predictionFailed
deriving DecidableEq

/-- The effectful stages of the handler, recorded in order: reading the
request body, attempting `Image.open`, and invoking
`classifier.predict_from_image`. -/
inductive Step where
  | readBytes
  | openImage
  | runClassifier
deriving DecidableEq

/-- `allowed_content_types` from `src/main.py` lines 182-188. -/
def allowed_content_types : List String :=
  ["image/jpeg", "image/png", "image/gif", "image/webp", "image/jpg"]

/-- `max_size = 10 * 1024 * 1024` from `src/main.py` line 201. -/
def max_size : Nat := 10 * 1024 * 1024

/-- The `/predict` handler of `src/main.py` (lines 156-242) as a pure
function: given the global classifier state and the upload, it returns
either an error response or the JSON result, together with the list of
pipeline stages that were executed.  The checks run in source order:
model loaded, content-type allowlist, size limit, image decoding,
classifier invocation. -/
def predict (st : ServiceState) (u : Upload) :
    Except PredictError ClassificationResult × List Step :=
  match st with
  | none => (Except.error PredictError.notReady, [])
  | some c =>
    if u.contentType ∉ allowed_content_types then
      (Except.error PredictError.invalidContentType, [])
    else if u.size > max_size then
      (Except.error PredictError.payloadTooLarge, [Step.readBytes])
    else
      match u.decodesTo with
      | none => (Except.error PredictError.invalidImage, [Step.readBytes, Step.openImage])
      | some img =>
        match predict_from_image c img with
        | none =>
          (Except.error PredictError.predictionFailed,
           [Step.readBytes, Step.openImage, Step.runClassifier])
        | some (pred, conf, probs) =>
          (Except.ok (predictResponse c.confidence_threshold pred conf probs),
           [Step.readBytes, Step.openImage, Step.runClassifier])

/-- The local filesystem, as an association list from paths to file
contents (a file's bytes); `List.lookup` finds the most recent write. -/
def FS : Type := List (String × List Nat)

/-- `os.path.exists` on the modelled filesystem. -/
def fileExists (fs : FS) (p : String) : Bool :=
  (List.lookup p fs).isSome

/-- Behaviour of one attempted GCS object download: either the full
object content arrives, or the transfer fails (missing object,
unreachable bucket, dropped connection) after `written` bytes — possibly
none — have already been streamed, raising an exception `msg`. -/
inductive DlOutcome where
  | success (content : List Nat)
  | failure (written : List Nat) (msg : String)

/-- Models `google.cloud.storage.Blob.download_to_filename(path)` as
`src/main.py` line 54 invokes it, aimed directly at the final
destination path: the library opens the destination file for writing and
streams the object into it, so on a failed transfer the bytes received
so far (possibly none) are left at the destination and the exception
propagates to the caller. -/
def download_to_filename (o : DlOutcome) (dest : String) (fs : FS) :
    FS × Except String Unit :=
  match o with
  | DlOutcome.success content => ((dest, content) :: fs, Except.ok ())
  | DlOutcome.failure written msg => ((dest, written) :: fs, Except.error msg)

/-- Result of one `download_model_from_gcs` call: the filesystem after
the call, the outcome (`Except.error` models an exception propagating to
the caller, carrying the original message), and how many network
fetches were performed. -/
structure EnsureResult where
  fs : FS
  result : Except String Unit
  fetches : Nat

/-- `download_model_from_gcs` from `src/main.py` lines 27-61: if a file
already exists at `destination_path` it returns at once (the only reads
are the existence check and `getsize` for logging); otherwise it
downloads the blob straight to `destination_path` and re-raises any
exception unchanged (`raise` on line 61). -/
def download_model_from_gcs (o : DlOutcome) (destination_path : String) (fs : FS) :
    EnsureResult :=
  if fileExists fs destination_path then
    ⟨fs, Except.ok (), 0⟩
  else
    let step := download_to_filename o destination_path fs
    ⟨step.1, step.2, 1⟩

/-- `model_local_path` from `src/main.py` line 72. -/
def model_local_path : String := "models/best-model.pth"

/-- The startup half of `lifespan` from `src/main.py` lines 64-98 as a
function of the two effect outcomes: the GCS download behaviour and the
result of constructing `BirdPlaneSupermanClassifier` (`Except.error`
when the constructor raises).  It returns the global classifier state
after startup, the exception propagated out of `lifespan` (if any), and
the resulting filesystem.  The global starts as `None` and is assigned
only after a successful construction. -/
def lifespan (o : DlOutcome) (fs : FS)
    (loadResult : Except String BirdPlaneSupermanClassifier) :
    ServiceState × Except String Unit × FS :=
  let dl := download_model_from_gcs o model_local_path fs
  match dl.result with
  | Except.error m => (none, Except.error m, dl.fs)
  | Except.ok _ =>
    match loadResult with
    | Except.error m => (none, Except.error m, dl.fs)
    | Except.ok c => (some c, Except.ok (), dl.fs)

-- Basic facts about maxProb and argmaxLabel.

lemma le_maxProb (d : ProbDist) (l : Label) : d l ≤ maxProb d := by
  cases l <;> simp [maxProb, le_max_iff, le_refl]

lemma maxProb_le (d : ProbDist) (x : ℚ) (h : ∀ l, d l ≤ x) : maxProb d ≤ x := by
  simp only [maxProb, max_le_iff]
  exact ⟨h Label.bird, h Label.plane, h Label.superman, h Label.other⟩

lemma d_argmax (d : ProbDist) : d (argmaxLabel d) = maxProb d := by
  unfold argmaxLabel
  dsimp only
  split_ifs with h1 h2 h3 h3 h2 h3 h3 <;>
    (refine le_antisymm (le_maxProb d _) (maxProb_le d _ ?_) ; intro l ; cases l) <;>
    first
      | exact le_refl _
      | linarith

lemma argmax_eq_other_iff (d : ProbDist) :
    argmaxLabel d = Label.other ↔
      (∀ l, l ≠ Label.other → d l < d Label.other) := by
  unfold argmaxLabel
  dsimp only
  constructor
  · intro h l hl
    revert h
    split_ifs with h1 h2 h3 h3 h2 h3 h3 <;> intro h <;> cases l <;>
      first
        | exact absurd rfl hl
        | linarith
        | exact absurd h (by intro hc; cases hc)
  · intro h
    have hb := h Label.bird (by intro hc; cases hc)
    have hp := h Label.plane (by intro hc; cases hc)
    have hs := h Label.superman (by intro hc; cases hc)
    split_ifs with h1 h2 h3 h3 h2 h3 h3 <;> first | rfl | linarith

lemma argmax_first (d : ProbDist) (l : Label) (hl : d l = maxProb d) :
    priorityIdx (argmaxLabel d) ≤ priorityIdx l := by
  have hb := le_maxProb d Label.bird
  have hp := le_maxProb d Label.plane
  have hs := le_maxProb d Label.superman
  have ho := le_maxProb d Label.other
  have hd := d_argmax d
  revert hd
  unfold argmaxLabel
  dsimp only
  split_ifs with h1 h2 h3 h3 h2 h3 h3 <;> intro hd <;> cases l <;>
    simp only [priorityIdx] <;>
    first
      | omega
      | (exfalso ; rw [← hd] at hl ; linarith)

-- Facts about round-half-to-even rounding.

lemma roundHalfEven_close (q : ℚ) : |((roundHalfEven q : ℤ) : ℚ) - q| ≤ 1/2 := by
  have hfl := Int.floor_le q
  have hlt := Int.lt_floor_add_one q
  unfold roundHalfEven
  split_ifs with h1 h2 h3 <;> rw [abs_le] <;> constructor <;> push_cast <;> linarith

lemma round4_close (q : ℚ) : |round4 q - q| ≤ 1/20000 := by
  have h := roundHalfEven_close (q * 10000)
  unfold round4
  rw [show ((roundHalfEven (q * 10000) : ℤ) : ℚ) / 10000 - q
        = (((roundHalfEven (q * 10000) : ℤ) : ℚ) - q * 10000) / 10000 by ring]
  rw [abs_div]
  rw [show |(10000 : ℚ)| = 10000 by norm_num]
  rw [div_le_iff (by norm_num : (0:ℚ) < 10000)]
  linarith

lemma round4_mem_unit (q : ℚ) (h0 : 0 ≤ q) (h1 : q ≤ 1) :
    0 ≤ round4 q ∧ round4 q ≤ 1 := by
  have hq0 : (0:ℚ) ≤ q * 10000 := by linarith
  have hq1 : q * 10000 ≤ 10000 := by linarith
  have hc := roundHalfEven_close (q * 10000)
  rw [abs_le] at hc
  have hlow : ((-1 : ℤ) : ℚ) < ((roundHalfEven (q * 10000) : ℤ) : ℚ) := by
    push_cast
    linarith
  have hhigh : ((roundHalfEven (q * 10000) : ℤ) : ℚ) < ((10001 : ℤ) : ℚ) := by
    push_cast
    linarith
  have hlow' : (0 : ℤ) ≤ roundHalfEven (q * 10000) := by
    have h2 : (-1 : ℤ) < roundHalfEven (q * 10000) := by exact_mod_cast hlow
    omega
  have hhigh' : roundHalfEven (q * 10000) ≤ (10000 : ℤ) := by
    have h2 : roundHalfEven (q * 10000) < (10001 : ℤ) := by exact_mod_cast hhigh
    omega
  constructor
  · unfold round4
    apply div_nonneg _ (by norm_num : (0:ℚ) ≤ 10000)
    exact_mod_cast hlow'
  · unfold round4
    rw [div_le_one (by norm_num : (0:ℚ) < 10000)]
    exact_mod_cast hhigh'

-- Concrete instances used by witnesses (the worked example of the spec).

/-- The spec's worked example distribution
bird 0.3, plane 0.2, superman 0.1, other 0.4. -/
def exDist : ProbDist := fun l =>
  match l with
  | Label.bird => 3/10
  | Label.plane => 2/10
  | Label.superman => 1/10
  | Label.other => 4/10

/-- C1: for every probability distribution and threshold, the response's
`threshold_applied` field is true iff the maximum probability is strictly
below the threshold and the argmax label (before any override — equivalently,
"other" strictly dominates every other label) is "other"; in particular a
bird/plane/superman argmax yields `threshold_applied = false` whatever its
probability. -/
theorem threshold_applied_iff (d : ProbDist) (t : ℚ) :
    ((predictResponse t (argmaxLabel d) (maxProb d) d).threshold_applied = true ↔
      (maxProb d < t ∧ ∀ l, l ≠ Label.other → d l < d Label.other))
    ∧ (argmaxLabel d ≠ Label.other →
        (predictResponse t (argmaxLabel d) (maxProb d) d).threshold_applied = false) := by
  have hkey : (predictResponse t (argmaxLabel d) (maxProb d) d).threshold_applied = true ↔
      (maxProb d < t ∧ argmaxLabel d = Label.other) := by
    simp only [predictResponse]
    split_ifs with h
    · exact iff_of_true rfl h
    · exact iff_of_false (by simp) h
  constructor
  · rw [hkey, argmax_eq_other_iff]
  · intro hne
    simp only [predictResponse]
    rw [if_neg]
    intro hc
    exact hne hc.2

/-- Witness for C1 at the spec's worked example: distribution
(0.3, 0.2, 0.1, 0.4) with threshold 0.7 has `threshold_applied` true. -/
theorem threshold_applied_iff_witness :
    (predictResponse (7/10) (argmaxLabel exDist) (maxProb exDist) exDist).threshold_applied
      = true :=
  (threshold_applied_iff exDist (7/10)).1.mpr
    (by
      constructor
      · norm_num [maxProb, exDist, max_def]
      · intro l hl
        cases l
        · norm_num [exDist]
        · norm_num [exDist]
        · norm_num [exDist]
        · exact absurd rfl hl)

/-- C2: the `predicted_class` of `DecisionPolicy.decide` carries the
maximum probability, any label tying that maximum has equal or lower
priority than the chosen one (priority order bird > plane > superman >
other), and `decide` is a pure function of its two arguments. -/
theorem decide_argmax_priority (d : ProbDist) (t : ℚ) :
    d ((DecisionPolicy.decide d t).predicted_class) = maxProb d
    ∧ (∀ l, d l = maxProb d →
        priorityIdx ((DecisionPolicy.decide d t).predicted_class) ≤ priorityIdx l)
    ∧ (∀ d2 t2, (∀ l, d l = d2 l) → t = t2 →
        DecisionPolicy.decide d t = DecisionPolicy.decide d2 t2) := by
  refine ⟨d_argmax d, ?_, ?_⟩
  · intro l hl
    exact argmax_first d l hl
  · intro d2 t2 h ht
    have hfun : d = d2 := funext h
    rw [hfun, ht]

/-- Witness for C2 at the spec's worked example: the predicted class of
`decide` attains the maximum probability 0.4 and has priority at most
that of the tying label "other". -/
theorem decide_argmax_priority_witness :
    exDist ((DecisionPolicy.decide exDist (7/10)).predicted_class) = maxProb exDist
    ∧ priorityIdx ((DecisionPolicy.decide exDist (7/10)).predicted_class)
        ≤ priorityIdx Label.other :=
  ⟨(decide_argmax_priority exDist (7/10)).1,
   (decide_argmax_priority exDist (7/10)).2.1 Label.other
     (by norm_num [exDist, maxProb, max_def])⟩

/-- C4: `predict` called while the service is Unloaded (`classifier is
None`) fails with the model-not-loaded error for every upload, without
reading the body, decoding the image, or invoking the classifier. -/
theorem predict_unloaded (u : Upload) :
    predict none u = (Except.error PredictError.notReady, [])
    ∧ Step.openImage ∉ (predict none u).2
    ∧ Step.runClassifier ∉ (predict none u).2 := by
  refine ⟨rfl, ?_, ?_⟩ <;> simp [predict]

/-- C5: startup loads the service iff both the artifact download and the
classifier construction succeed; on any failure the global classifier
stays `None` (Unloaded), the exception propagates out of `lifespan`, and
every `predict` call against the resulting state is rejected as
not-ready, so a partially-initialized model never serves. -/
theorem lifespan_loaded_iff (o : DlOutcome) (fs : FS)
    (ld : Except String BirdPlaneSupermanClassifier) :
    ((∃ c, (lifespan o fs ld).1 = some c) ↔
      ((download_model_from_gcs o model_local_path fs).result = Except.ok ()
        ∧ ∃ c, ld = Except.ok c))
    ∧ (((lifespan o fs ld).1 = none) ↔ ∃ m, (lifespan o fs ld).2.1 = Except.error m)
    ∧ (∀ u, (lifespan o fs ld).1 = none →
        (predict ((lifespan o fs ld).1) u).1 = Except.error PredictError.notReady) := by
  refine ⟨?_, ?_, ?_⟩
  · cases hdl : (download_model_from_gcs o model_local_path fs).result with
    | error m =>
      simp only [lifespan, hdl]
      constructor
      · rintro ⟨c, hc⟩
        cases hc
      · rintro ⟨h, -⟩
        cases h
    | ok v =>
      cases v
      cases ld with
      | error m =>
        simp only [lifespan, hdl]
        constructor
        · rintro ⟨c, hc⟩
          cases hc
        · rintro ⟨-, c, hc⟩
          cases hc
      | ok c =>
        simp only [lifespan, hdl]
        exact iff_of_true ⟨c, rfl⟩ ⟨by trivial, c, rfl⟩
  · cases hdl : (download_model_from_gcs o model_local_path fs).result with
    | error m =>
      simp only [lifespan, hdl]
      exact iff_of_true (by trivial) ⟨m, rfl⟩
    | ok v =>
      cases v
      cases ld with
      | error m =>
        simp only [lifespan, hdl]
        exact iff_of_true (by trivial) ⟨m, rfl⟩
      | ok c =>
        simp only [lifespan, hdl]
        constructor
        · intro h
          cases h
        · rintro ⟨m, hm⟩
          cases hm
  · intro u h
    rw [h]
    rfl

/-- Witness for C5: a download that dies with "boom" leaves the service
Unloaded. -/
theorem lifespan_loaded_iff_witness :
    (lifespan (DlOutcome.failure [] "boom") [] (Except.error "x")).1 = none :=
  ((lifespan_loaded_iff (DlOutcome.failure [] "boom") [] (Except.error "x")).2.1).mpr
    ⟨"boom", rfl⟩

/-- C6: with the model loaded, an allowed declared content-type and a
size within the limit, a byte stream that PIL cannot decode fails with
the invalid-image error: the handler answers with an error response
instead of crashing, never invokes the classifier, and never returns a
(default or fabricated) prediction. -/
theorem predict_invalid_image (c : BirdPlaneSupermanClassifier) (u : Upload)
    (hct : u.contentType ∈ allowed_content_types)
    (hsize : u.size ≤ max_size)
    (hdec : u.decodesTo = none) :
    (predict (some c) u).1 = Except.error PredictError.invalidImage
    ∧ (∀ r, (predict (some c) u).1 ≠ Except.ok r)
    ∧ Step.runClassifier ∉ (predict (some c) u).2 := by
  have hpred : predict (some c) u
      = (Except.error PredictError.invalidImage, [Step.readBytes, Step.openImage]) := by
    simp only [predict]
    rw [if_neg (not_not_intro hct), if_neg (Nat.not_lt.mpr hsize), hdec]
  rw [hpred]
  refine ⟨rfl, ?_, ?_⟩
  · intro r hr
    cases hr
  · simp

/-- Witness for C6: a loaded service rejects a 17-byte stream declared
"image/png" that does not decode. -/
theorem predict_invalid_image_witness :
    (predict (some ⟨7/10, fun _ => none⟩) ⟨"image/png", 17, none⟩).1
      = Except.error PredictError.invalidImage :=
  (predict_invalid_image ⟨7/10, fun _ => none⟩ ⟨"image/png", 17, none⟩
    (by simp [allowed_content_types]) (by norm_num [max_size]) rfl).1

/-- A loaded classifier stub used in concrete runs. -/
def stubClassifier : BirdPlaneSupermanClassifier := ⟨7/10, fun _ => none⟩

/-- C7 counterexample: the same undecodable 17-byte stream is rejected by
the content-type allowlist (400 "Invalid file type") when declared
"text/plain", but as an invalid image (400 "Invalid image file") when
declared "image/png" — so the declared content-type does change which
error class undecodable bytes produce. -/
theorem content_type_changes_error :
    (predict (some stubClassifier) ⟨"text/plain", 17, none⟩).1
        = Except.error PredictError.invalidContentType
    ∧ (predict (some stubClassifier) ⟨"image/png", 17, none⟩).1
        = Except.error PredictError.invalidImage
    ∧ PredictError.invalidContentType ≠ PredictError.invalidImage := by
  refine ⟨rfl, rfl, ?_⟩
  intro h
  cases h

/-- C7 (amended): among the allowed content-types the declared type does
not influence the outcome: with the model loaded, two uploads carrying
the same byte stream (same length and decode result) under any two
allowed content-types produce identical responses; in particular an
undecodable stream within the size limit is rejected with the
invalid-image error whichever allowed content-type was declared.  (A
disallowed content-type is instead rejected earlier by the allowlist
check, before any decode is attempted.) -/
theorem predict_content_type_independent (c : BirdPlaneSupermanClassifier)
    (u1 u2 : Upload)
    (h1 : u1.contentType ∈ allowed_content_types)
    (h2 : u2.contentType ∈ allowed_content_types)
    (hsize : u1.size = u2.size) (hdec : u1.decodesTo = u2.decodesTo) :
    predict (some c) u1 = predict (some c) u2
    ∧ (u1.size ≤ max_size → u1.decodesTo = none →
        (predict (some c) u1).1 = Except.error PredictError.invalidImage) := by
  constructor
  · simp only [predict]
    rw [if_neg (not_not_intro h1), if_neg (not_not_intro h2), hsize, hdec]
  · intro hs hd
    simp only [predict]
    rw [if_neg (not_not_intro h1), if_neg (Nat.not_lt.mpr hs), hd]

/-- Witness for C7 (amended): the same undecodable bytes declared
"image/png" and "image/jpeg" yield the same response. -/
theorem predict_content_type_independent_witness :
    predict (some stubClassifier) ⟨"image/png", 17, none⟩
      = predict (some stubClassifier) ⟨"image/jpeg", 17, none⟩ :=
  (predict_content_type_independent stubClassifier
    ⟨"image/png", 17, none⟩ ⟨"image/jpeg", 17, none⟩
    (by simp [allowed_content_types]) (by simp [allowed_content_types]) rfl rfl).1

/-- Any `download_model_from_gcs` call leaves a file at the destination
path: either it was already there, or the download (even a failed one,
which streams straight into the destination) created it. -/
lemma ensure_writes (o : DlOutcome) (p : String) (fs : FS) :
    fileExists (download_model_from_gcs o p fs).fs p = true := by
  cases hex : fileExists fs p with
  | true =>
    unfold download_model_from_gcs
    rw [hex]
    simpa using hex
  | false =>
    unfold download_model_from_gcs
    rw [hex]
    cases o <;> simp [download_to_filename, fileExists, List.lookup]

/-- C8: the cache-hit path of `download_model_from_gcs` returns at once —
no fetch, no filesystem change; consequently, once a call has succeeded a
repeat call with the same destination is a no-op, and the two calls
together perform at most one network fetch. -/
theorem ensure_idempotent (o1 o2 : DlOutcome) (p : String) (fs : FS) :
    (fileExists fs p = true →
        download_model_from_gcs o1 p fs = ⟨fs, Except.ok (), 0⟩)
    ∧ ((download_model_from_gcs o1 p fs).result = Except.ok () →
        download_model_from_gcs o2 p (download_model_from_gcs o1 p fs).fs
          = ⟨(download_model_from_gcs o1 p fs).fs, Except.ok (), 0⟩)
    ∧ (download_model_from_gcs o1 p fs).fetches
        + (download_model_from_gcs o2 p (download_model_from_gcs o1 p fs).fs).fetches
        ≤ 1 := by
  have hsecond : download_model_from_gcs o2 p (download_model_from_gcs o1 p fs).fs
      = ⟨(download_model_from_gcs o1 p fs).fs, Except.ok (), 0⟩ := by
    unfold download_model_from_gcs
    rw [if_pos]
    exact ensure_writes o1 p fs
  refine ⟨?_, fun _ => hsecond, ?_⟩
  · intro hex
    unfold download_model_from_gcs
    rw [if_pos hex]
  · rw [hsecond]
    cases hex : fileExists fs p with
    | true => simp [download_model_from_gcs, hex]
    | false => simp [download_model_from_gcs, hex]

/-- Witness for C8: with the model file already present, a call is a
no-op with zero fetches. -/
theorem ensure_idempotent_witness :
    download_model_from_gcs (DlOutcome.success [1]) model_local_path
        [(model_local_path, [2])]
      = ⟨[(model_local_path, [2])], Except.ok (), 0⟩ :=
  (ensure_idempotent (DlOutcome.success [1]) (DlOutcome.success [1]) model_local_path
    [(model_local_path, [2])]).1 rfl

/-- C9 counterexample: a fetch that fails after one byte ("404 blob not
found" after the destination file was opened and partially written)
leaves that partial file at the final `local_path`, and the error that
propagates is the GCS client's own exception message re-raised unchanged
— there is no `ArtifactFetchError` wrapper and no temp-then-rename. -/
theorem ensure_not_atomic :
    (download_model_from_gcs (DlOutcome.failure [7] "404 blob not found")
        model_local_path []).result = Except.error "404 blob not found"
    ∧ List.lookup model_local_path
        (download_model_from_gcs (DlOutcome.failure [7] "404 blob not found")
          model_local_path []).fs
        = some [7] :=
  ⟨rfl, rfl⟩

/-- C9 (amended): when `download_model_from_gcs` must fetch, it streams
straight into `local_path`: a transfer that fails after writing
`written` bytes leaves exactly those bytes at `local_path`, and the
original exception message propagates unchanged (line 61 re-raises; the
code defines no `ArtifactFetchError`). -/
theorem ensure_failure_leaves_file (p : String) (fs : FS) (written : List Nat)
    (msg : String) (hmiss : fileExists fs p = false) :
    download_model_from_gcs (DlOutcome.failure written msg) p fs
      = ⟨(p, written) :: fs, Except.error msg, 1⟩ := by
  unfold download_model_from_gcs
  rw [hmiss]
  rfl

/-- Witness for C9 (amended): a failed fetch into an empty filesystem
leaves the partial file and re-raises. -/
theorem ensure_failure_leaves_file_witness :
    download_model_from_gcs (DlOutcome.failure [7] "boom") model_local_path []
      = ⟨[(model_local_path, [7])], Except.error "boom", 1⟩ :=
  ensure_failure_leaves_file model_local_path [] [7] "boom" rfl

/-- C10: an upload longer than 10*1024*1024 bytes never reaches image
decoding or the classifier, and — once past the checks that precede it
(model loaded, allowed content-type) — is rejected with the
payload-too-large (413) error straight after the body is read. -/
theorem predict_oversized (st : ServiceState) (u : Upload)
    (hbig : u.size > max_size) :
    (∀ c, st = some c → u.contentType ∈ allowed_content_types →
        predict st u = (Except.error PredictError.payloadTooLarge, [Step.readBytes]))
    ∧ Step.openImage ∉ (predict st u).2
    ∧ Step.runClassifier ∉ (predict st u).2 := by
  have hsteps : ∀ st2, Step.openImage ∉ (predict st2 u).2
      ∧ Step.runClassifier ∉ (predict st2 u).2 := by
    intro st2
    match st2 with
    | none => simp [predict]
    | some c =>
      by_cases hct : u.contentType ∈ allowed_content_types
      · simp only [predict]
        rw [if_neg (not_not_intro hct), if_pos hbig]
        refine ⟨?_, ?_⟩ <;> simp
      · simp only [predict]
        rw [if_pos hct]
        refine ⟨?_, ?_⟩ <;> simp
  refine ⟨?_, hsteps st⟩
  intro c hst hct
  rw [hst]
  simp only [predict]
  rw [if_neg (not_not_intro hct), if_pos hbig]

/-- Witness for C10: a 10 MiB + 1 byte upload with an allowed
content-type on a loaded service is answered with 413 after reading the
body only. -/
theorem predict_oversized_witness :
    predict (some stubClassifier) ⟨"image/jpeg", 10485761, none⟩
      = (Except.error PredictError.payloadTooLarge, [Step.readBytes]) :=
  (predict_oversized (some stubClassifier) ⟨"image/jpeg", 10485761, none⟩
    (by norm_num [max_size])).1 stubClassifier rfl (by simp [allowed_content_types])

/-- A distribution satisfying the scorer invariant exactly (it sums to 1)
whose four values each round upward by half a unit in the last place:
bird = plane = superman = 0.12335, other = 0.62995. -/
def cexDist : ProbDist := fun l =>
  match l with
  | Label.bird => 12335/100000
  | Label.plane => 12335/100000
  | Label.superman => 12335/100000
  | Label.other => 62995/100000

/-- C3 counterexample: `cexDist` satisfies the distribution invariant
(values in [0,1], sum exactly 1), yet after the endpoint's per-value
rounding the returned probabilities sum to 1.0002 — outside the claimed
1e-4 tolerance. -/
theorem probabilities_sum_counterexample :
    ValidDist cexDist
    ∧ ¬ (|sumDist (predictResponse (7/10) Label.other (62995/100000) cexDist).probabilities
            - 1| ≤ 1/10000) := by
  constructor
  · constructor
    · intro l
      cases l <;> constructor <;> norm_num [cexDist]
    · norm_num [sumDist, cexDist]
  · have h1 : round4 (12335/100000 : ℚ) = 1234/10000 := by
      norm_num [round4, roundHalfEven]
    have h2 : round4 (62995/100000 : ℚ) = 6300/10000 := by
      norm_num [round4, roundHalfEven]
    simp only [predictResponse, sumDist, cexDist]
    rw [h1, h2, not_le, lt_abs]
    left
    norm_num

/-- C3 (amended): every `probabilities` field the service returns maps
each of the four labels to a value in [0,1] exactly once; before
rounding the values sum to 1 within 1e-4, and after the endpoint's
per-value rounding to four decimals the sum stays within 3e-4 of 1 (the
1e-4 scorer tolerance plus at most 5e-5 rounding error per value). -/
theorem probabilities_after_rounding (t : ℚ) (pred : Label) (conf : ℚ)
    (d : ProbDist) (h : ValidDist d) :
    (∀ l, 0 ≤ (predictResponse t pred conf d).probabilities l
        ∧ (predictResponse t pred conf d).probabilities l ≤ 1)
    ∧ |sumDist (predictResponse t pred conf d).probabilities - 1| ≤ 3/10000 := by
  obtain ⟨hrange, hsum⟩ := h
  constructor
  · intro l
    exact round4_mem_unit (d l) (hrange l).1 (hrange l).2
  · have hb := round4_close (d Label.bird)
    have hp := round4_close (d Label.plane)
    have hs := round4_close (d Label.superman)
    have ho := round4_close (d Label.other)
    simp only [predictResponse, sumDist] at hsum ⊢
    rw [abs_le] at hb hp hs ho hsum ⊢
    constructor <;> linarith [hb.1, hb.2, hp.1, hp.2, hs.1, hs.2, ho.1, ho.2]

/-- The uniform distribution, used as witness input. -/
def uniformDist : ProbDist := fun _ => 1/4

/-- Witness for C3 (amended) at the uniform distribution: the rounded
probabilities of the response sum to 1 within 3e-4. -/
theorem probabilities_after_rounding_witness :
    |sumDist (predictResponse (7/10) Label.bird (1/4) uniformDist).probabilities - 1|
      ≤ 3/10000 :=
  (probabilities_after_rounding (7/10) Label.bird (1/4) uniformDist
    (by
      constructor
      · intro l
        constructor <;> norm_num [uniformDist]
      · norm_num [sumDist, uniformDist])).2
